import Mathlib

/-!
Shallow embedding of the negotiation core of israelias/django-react-ecommerce:
`OrderSerializer.validate`, `OrderSerializer.create` and
`OrderSerializer.update` from src/backend/order/serializers.py, together with
the composed serializer operations (validate-then-create on POST,
validate-then-update on PUT) that the views expose as CreateOffer and
UpdateOffer.

Monetary values (`price`, `amount`) are modelled as integers; the source
compares them with float casts, and the claims only involve exact
comparisons. Django exceptions are modelled as an error type:
`MethodNotAllowed` (which the HTTP layer surfaces as the Conflict error
kind) becomes `OpError.conflict`, `NotFound` becomes `OpError.notFound`,
and an uncaught Python `KeyError` from an absent dictionary key becomes
`OpError.keyError`. A raised exception aborts the request before any
database write, so the composed operations return `Except`: an `.error`
result commits nothing.
-/

namespace EcommerceOrder

/-- The order status values of the Order model. The source stores them as
strings drawn from the two tuples below. -/
inductive Status where
  | OFFERED
  | DENIED
  | PENDING
  | PROCESSING
  | ACCEPTED
  | COMPLETED
deriving DecidableEq, Repr

/-- serializers.py line 12: `available = ("OFFERED", "DENIED", "PENDING")`. -/
def available : List Status := [.OFFERED, .DENIED, .PENDING]

/-- serializers.py line 13: `sold = ("PROCESSING", "ACCEPTED", "COMPLETED")`. -/
def sold : List Status := [.PROCESSING, .ACCEPTED, .COMPLETED]

/-- The Product row fields this core reads and writes. `seller` is the
vendor owning the listing (spec section 3: the created order gets
`vendor = product.seller`). -/
structure Product where
  id : Nat
  seller : Nat
  price : Int
  is_available : Bool
deriving DecidableEq, Repr

/-- The Order row fields this core reads and writes. `buyer` and `vendor`
are identities (the `user.vendor` objects the source compares with `==`). -/
structure Order where
  id : Nat
  productId : Nat
  buyer : Nat
  vendor : Nat
  amount : Int
  status : Status
deriving DecidableEq, Repr

/-- The validated payload dictionary handed to `validate` / `create` /
`update`. `amount = none` models a request payload with no "amount" key
(the field is declared `required: False` in Meta.extra_kwargs), and
`status = none` a payload with no "status" key; `product` is the Product
row the primary-key field resolved. -/
structure OfferData where
  buyer : Nat
  product : Product
  amount : Option Int
  status : Option Status
deriving DecidableEq, Repr

/-- Errors escaping the serializer. `conflict` is raised as
`MethodNotAllowed` in the source and mapped to the Conflict error kind;
`keyError` is an uncaught Python KeyError from `data[key]`. -/
inductive OpError where
  | conflict (message : String)
  | notFound (message : String)
  | keyError (key : String)
deriving DecidableEq, Repr

/-- The request shape `validate` branches on: a POST has no bound
instance, a PUT is bound to the Order being updated. -/
inductive Request where
  | post
  | put (inst : Order)
deriving DecidableEq, Repr

/-- serializers.py lines 129-131:
`Order.objects.filter(buyer=data["buyer"], product=data["product"]).exists()`. -/
def hasStandingOrder (orders : List Order) (buyer : Nat) (productId : Nat) : Bool :=
  orders.any fun o => o.buyer == buyer && o.productId == productId

def duplicateMsg : String := "This product is already in your orders."

def notAvailableMsg : String := "This product is no longer available."

def overPriceMsg (price : Int) : String :=
  "Your offer must not be greater than " ++ toString price

/-- serializers.py lines 154-156: the final check of `validate`, reached
on every path that raised no earlier exception. -/
def checkAvailability (data : OfferData) : Except OpError OfferData :=
  if data.product.is_available = false then
    .error (.notFound notAvailableMsg)
  else
    .ok data

/-- serializers.py lines 110-158, `OrderSerializer.validate`. On POST it
first rejects a duplicate standing order, then reads `data["amount"]`
unconditionally (a KeyError when the key is absent) and rejects an amount
above the product price. On PUT, when the requesting user is the bound
order buyer, it reads `data["amount"]` the same way and applies the same
price cap. Every non-raising path then falls through to the
product-availability check. -/
def validate (orders : List Order) (actor : Nat) (req : Request) (data : OfferData) :
    Except OpError OfferData :=
  match req with
  | .post =>
    if hasStandingOrder orders data.buyer data.product.id then
      .error (.conflict duplicateMsg)
    else
      match data.amount with
      | none => .error (.keyError "amount")
      | some a =>
        if a > data.product.price then
          .error (.conflict (overPriceMsg data.product.price))
        else
          checkAvailability data
  | .put inst =>
    if actor = inst.buyer then
      match data.amount with
      | none => .error (.keyError "amount")
      | some a =>
        if a > data.product.price then
          .error (.conflict (overPriceMsg data.product.price))
        else
          checkAvailability data
    else
      checkAvailability data

/-- serializers.py lines 160-196, `OrderSerializer.create`. Builds the
order with `amount = validated_data.get("amount", product.price)`, then
derives the status from amount vs price, then writes the availability
flag for the two statuses it checks explicitly. Modelled from the spec:
`dbDefault` stands for the Order model default status assigned by
`Order.objects.create` (src/backend/order/models.py is not part of the
analysed sources); the created order takes `vendor = product.seller`
(spec section 3, the vendor reference is derived from the product
seller). Both are overwritten or irrelevant whenever `amount <= price`,
which `validate` guarantees on every committed create. -/
def create (dbDefault : Status) (newId : Nat) (actor : Nat) (product : Product)
    (validated : OfferData) : Order × Product :=
  let amount := validated.amount.getD product.price
  let inst : Order :=
    { id := newId, productId := product.id, buyer := actor,
      vendor := product.seller, amount := amount, status := dbDefault }
  let inst := if inst.amount < product.price then { inst with status := .OFFERED } else inst
  let inst := if inst.amount = product.price then { inst with status := .PROCESSING } else inst
  let product :=
    if inst.status = .PROCESSING then { product with is_available := false } else product
  let product :=
    if inst.status = .OFFERED then { product with is_available := true } else product
  (inst, product)

/-- serializers.py lines 238-250: after saving the order, reconcile the
product availability flag from the final order status. -/
def reconcileAvailability (st : Status) (product : Product) : Product :=
  let product := if st ∈ sold then { product with is_available := false } else product
  if st ∈ available then { product with is_available := true } else product

/-- serializers.py lines 198-251, `OrderSerializer.update`. When the
requesting user is the order vendor, the status is replaced by the
requested one (unchanged when the payload has no "status" key); when the
user is the order buyer, the amount is replaced the same way and the
status recomputed from amount vs price. Afterwards the availability
reconciliation runs unconditionally on the final status. -/
def update (actor : Nat) (inst : Order) (validated : OfferData) : Order × Product :=
  let product := validated.product
  let inst :=
    if actor = inst.vendor then { inst with status := validated.status.getD inst.status }
    else inst
  let inst :=
    if actor = inst.buyer then
      let inst := { inst with amount := validated.amount.getD inst.amount }
      let inst := if inst.amount < product.price then { inst with status := .OFFERED } else inst
      if inst.amount = product.price then { inst with status := .PROCESSING } else inst
    else inst
  (inst, reconcileAvailability inst.status product)

/-- The composed POST operation: `validate` (with no bound instance) then
`create`. The payload carries `buyer = actor` as the client sends its own
identity; a raised exception means nothing is written. -/
def CreateOffer (orders : List Order) (dbDefault : Status) (newId : Nat)
    (actor : Nat) (product : Product) (amount : Option Int) :
    Except OpError (Order × Product) :=
  let data : OfferData := { buyer := actor, product := product, amount := amount, status := none }
  match validate orders actor .post data with
  | .error e => .error e
  | .ok validated => .ok (create dbDefault newId actor product validated)

/-- The composed PUT operation on a bound order: `validate` then
`update`. `product` is the current Product row the payload primary key
resolves to; a raised exception means nothing is written. -/
def UpdateOffer (orders : List Order) (actor : Nat) (inst : Order) (product : Product)
    (newAmount : Option Int) (newStatus : Option Status) :
    Except OpError (Order × Product) :=
  let data : OfferData :=
    { buyer := inst.buyer, product := product, amount := newAmount, status := newStatus }
  match validate orders actor (.put inst) data with
  | .error e => .error e
  | .ok validated => .ok (update actor inst validated)

/-! ## General lemmas about the embedded operations -/

theorem mem_sold_iff_not_mem_available (st : Status) : st ∈ sold ↔ ¬ st ∈ available := by
  cases st <;> decide

theorem reconcileAvailability_is_available_iff (st : Status) (p : Product) :
    (reconcileAvailability st p).is_available = true ↔ st ∈ available := by
  cases st <;> simp [reconcileAvailability, sold, available]

theorem reconcileAvailability_id (st : Status) (p : Product) :
    (reconcileAvailability st p).id = p.id := by
  cases st <;> rfl

theorem reconcileAvailability_price (st : Status) (p : Product) :
    (reconcileAvailability st p).price = p.price := by
  cases st <;> rfl

theorem checkAvailability_ok {data d : OfferData} (h : checkAvailability data = .ok d) :
    d = data ∧ data.product.is_available = true := by
  unfold checkAvailability at h
  by_cases hav : data.product.is_available = false
  · rw [if_pos hav] at h; cases h
  · rw [if_neg hav] at h
    injection h with h1
    refine ⟨h1.symm, ?_⟩
    revert hav
    cases data.product.is_available <;> simp

theorem validate_post_ok {orders : List Order} {actor : Nat} {data d : OfferData}
    (h : validate orders actor .post data = .ok d) :
    d = data ∧ hasStandingOrder orders data.buyer data.product.id = false ∧
      (∃ a, data.amount = some a ∧ a ≤ data.product.price) ∧
      data.product.is_available = true := by
  simp only [validate] at h
  by_cases hdup : hasStandingOrder orders data.buyer data.product.id = true
  · rw [if_pos hdup] at h; cases h
  · rw [if_neg hdup] at h
    cases hamt : data.amount with
    | none => rw [hamt] at h; cases h
    | some a =>
      rw [hamt] at h
      simp only [] at h
      by_cases hgt : a > data.product.price
      · rw [if_pos hgt] at h; cases h
      · rw [if_neg hgt] at h
        obtain ⟨hd, hav⟩ := checkAvailability_ok h
        refine ⟨hd, ?_, ⟨a, rfl, not_lt.mp hgt⟩, hav⟩
        revert hdup
        cases hasStandingOrder orders data.buyer data.product.id <;> simp

theorem validate_put_ok {orders : List Order} {actor : Nat} {inst : Order} {data d : OfferData}
    (h : validate orders actor (.put inst) data = .ok d) :
    d = data ∧ data.product.is_available = true ∧
      (actor = inst.buyer → ∃ a, data.amount = some a ∧ a ≤ data.product.price) := by
  simp only [validate] at h
  by_cases hb : actor = inst.buyer
  · rw [if_pos hb] at h
    cases hamt : data.amount with
    | none => rw [hamt] at h; cases h
    | some a =>
      rw [hamt] at h
      simp only [] at h
      by_cases hgt : a > data.product.price
      · rw [if_pos hgt] at h; cases h
      · rw [if_neg hgt] at h
        obtain ⟨hd, hav⟩ := checkAvailability_ok h
        exact ⟨hd, hav, fun _ => ⟨a, rfl, not_lt.mp hgt⟩⟩
  · rw [if_neg hb] at h
    obtain ⟨hd, hav⟩ := checkAvailability_ok h
    exact ⟨hd, hav, fun hb2 => absurd hb2 hb⟩

theorem validate_put_unavailable {orders : List Order} {actor : Nat} {inst : Order}
    {data : OfferData} (hp : data.product.is_available = false) :
    (actor ≠ inst.buyer →
        validate orders actor (.put inst) data = .error (.notFound notAvailableMsg)) ∧
    (∀ a, data.amount = some a → a ≤ data.product.price →
        validate orders actor (.put inst) data = .error (.notFound notAvailableMsg)) := by
  have hcheck : checkAvailability data = .error (.notFound notAvailableMsg) := by
    unfold checkAvailability; rw [if_pos hp]
  constructor
  · intro hb
    simp only [validate]
    rw [if_neg hb]
    exact hcheck
  · intro a hamt hle
    simp only [validate]
    by_cases hb : actor = inst.buyer
    · rw [if_pos hb, hamt]
      simp only []
      rw [if_neg (not_lt.mpr hle)]
      exact hcheck
    · rw [if_neg hb]
      exact hcheck

theorem update_snd (actor : Nat) (inst : Order) (vd : OfferData) :
    (update actor inst vd).2 =
      reconcileAvailability (update actor inst vd).1.status vd.product := rfl

theorem create_result (dbDefault : Status) (newId actor : Nat) (product : Product)
    (vd : OfferData) (a : Int) (ha : vd.amount = some a) :
    (a < product.price →
      create dbDefault newId actor product vd =
        ({ id := newId, productId := product.id, buyer := actor, vendor := product.seller,
           amount := a, status := .OFFERED }, { product with is_available := true })) ∧
    (a = product.price →
      create dbDefault newId actor product vd =
        ({ id := newId, productId := product.id, buyer := actor, vendor := product.seller,
           amount := a, status := .PROCESSING }, { product with is_available := false })) := by
  constructor
  · intro hlt
    simp [create, ha, hlt, ne_of_lt hlt]
  · intro heq
    simp [create, ha, heq]

theorem reconcileAvailability_invariant (st : Status) (q : Product) :
    ((reconcileAvailability st q).is_available = true ↔ st ∈ available) ∧
    ((reconcileAvailability st q).is_available = false ↔ st ∈ sold) := by
  cases st <;> simp [reconcileAvailability, sold, available]

theorem reconcileAvailability_idem (st : Status) (p : Product) :
    reconcileAvailability st (reconcileAvailability st p) = reconcileAvailability st p := by
  cases st <;> rfl

theorem UpdateOffer_ok {orders : List Order} {actor : Nat} {inst : Order} {product : Product}
    {newAmount : Option Int} {newStatus : Option Status} {o' : Order} {p' : Product}
    (h : UpdateOffer orders actor inst product newAmount newStatus = .ok (o', p')) :
    (o', p') = update actor inst ⟨inst.buyer, product, newAmount, newStatus⟩ ∧
      product.is_available = true ∧
      (actor = inst.buyer → ∃ a, newAmount = some a ∧ a ≤ product.price) := by
  simp only [UpdateOffer] at h
  cases hval : validate orders actor (.put inst) ⟨inst.buyer, product, newAmount, newStatus⟩ with
  | error e => rw [hval] at h; cases h
  | ok v =>
    rw [hval] at h
    simp only [] at h
    injection h with h1
    obtain ⟨hd, hav, hb⟩ := validate_put_ok hval
    subst hd
    exact ⟨h1.symm, hav, hb⟩

theorem CreateOffer_ok {orders : List Order} {dbDefault : Status} {newId actor : Nat}
    {product : Product} {amount : Option Int} {o' : Order} {p' : Product}
    (h : CreateOffer orders dbDefault newId actor product amount = .ok (o', p')) :
    hasStandingOrder orders actor product.id = false ∧
      (∃ a, amount = some a ∧ a ≤ product.price) ∧ product.is_available = true ∧
      (o', p') = create dbDefault newId actor product ⟨actor, product, amount, none⟩ := by
  simp only [CreateOffer] at h
  cases hval : validate orders actor .post ⟨actor, product, amount, none⟩ with
  | error e => rw [hval] at h; cases h
  | ok v =>
    rw [hval] at h
    simp only [] at h
    injection h with h1
    obtain ⟨hd, hdup, hamt, hav⟩ := validate_post_ok hval
    subst hd
    exact ⟨hdup, hamt, hav, h1.symm⟩

theorem UpdateOffer_eq_ok {orders : List Order} {actor : Nat} {inst : Order} {product : Product}
    {newAmount : Option Int} {newStatus : Option Status}
    (hav : product.is_available = true)
    (hbuyer : actor = inst.buyer → ∃ a, newAmount = some a ∧ a ≤ product.price) :
    UpdateOffer orders actor inst product newAmount newStatus =
      .ok (update actor inst ⟨inst.buyer, product, newAmount, newStatus⟩) := by
  have hchk : checkAvailability ⟨inst.buyer, product, newAmount, newStatus⟩ =
      .ok ⟨inst.buyer, product, newAmount, newStatus⟩ := by
    unfold checkAvailability
    rw [if_neg]
    simp [hav]
  simp only [UpdateOffer, validate]
  by_cases hb : actor = inst.buyer
  · obtain ⟨a, ha, hle⟩ := hbuyer hb
    subst ha
    rw [if_pos hb]
    simp only []
    rw [if_neg (not_lt.mpr hle), hchk]
  · rw [if_neg hb, hchk]

theorem UpdateOffer_eq_error {orders : List Order} {actor : Nat} {inst : Order}
    {product : Product} {newAmount : Option Int} {newStatus : Option Status} {e : OpError}
    (hval : validate orders actor (.put inst) ⟨inst.buyer, product, newAmount, newStatus⟩ =
      .error e) :
    UpdateOffer orders actor inst product newAmount newStatus = .error e := by
  simp only [UpdateOffer, hval]

theorem update_buyer (actor : Nat) (inst : Order) (vd : OfferData) (a : Int)
    (hb : actor = inst.buyer) (ha : vd.amount = some a) :
    (a < vd.product.price →
      update actor inst vd =
        ({ inst with amount := a, status := .OFFERED },
         reconcileAvailability .OFFERED vd.product)) ∧
    (a = vd.product.price →
      update actor inst vd =
        ({ inst with amount := a, status := .PROCESSING },
         reconcileAvailability .PROCESSING vd.product)) := by
  subst hb
  constructor
  · intro hlt
    by_cases hv : inst.buyer = inst.vendor <;>
      simp [update, ha, hv, hlt, ne_of_lt hlt]
  · intro heq
    by_cases hv : inst.buyer = inst.vendor <;>
      simp [update, ha, hv, heq]

theorem update_vendor (actor : Nat) (inst : Order) (vd : OfferData) (st : Status)
    (hv : actor = inst.vendor) (hb : actor ≠ inst.buyer) (hs : vd.status = some st) :
    update actor inst vd = ({ inst with status := st }, reconcileAvailability st vd.product) := by
  subst hv
  simp [update, hs, hb]

theorem update_stranger (actor : Nat) (inst : Order) (vd : OfferData)
    (hv : actor ≠ inst.vendor) (hb : actor ≠ inst.buyer) :
    update actor inst vd = (inst, reconcileAvailability inst.status vd.product) := by
  simp [update, hv, hb]

/-! ## Claim theorems -/

/-- C1: after every committed CreateOffer or UpdateOffer operation, the
product availability flag equals membership of the final order status in
the available set, and is false exactly when the status is in the sold
set. -/
theorem c1_availability_invariant :
    (∀ orders dbDefault newId actor product amount o' p',
        CreateOffer orders dbDefault newId actor product amount = .ok (o', p') →
        ((p'.is_available = true ↔ o'.status ∈ available) ∧
         (p'.is_available = false ↔ o'.status ∈ sold))) ∧
    (∀ orders actor inst product newAmount newStatus o' p',
        UpdateOffer orders actor inst product newAmount newStatus = .ok (o', p') →
        ((p'.is_available = true ↔ o'.status ∈ available) ∧
         (p'.is_available = false ↔ o'.status ∈ sold))) := by
  constructor
  · intro orders dbDefault newId actor product amount o' p' h
    obtain ⟨-, ⟨a, hamt, hle⟩, -, hpair⟩ := CreateOffer_ok h
    rcases lt_or_eq_of_le hle with hlt | heq
    · have hc := (create_result dbDefault newId actor product
        ⟨actor, product, amount, none⟩ a hamt).1 hlt
      have h2 := hpair.trans hc
      injection h2 with ho hp
      subst ho; subst hp
      simp [available, sold]
    · have hc := (create_result dbDefault newId actor product
        ⟨actor, product, amount, none⟩ a hamt).2 heq
      have h2 := hpair.trans hc
      injection h2 with ho hp
      subst ho; subst hp
      simp [available, sold]
  · intro orders actor inst product newAmount newStatus o' p' h
    obtain ⟨hpair, -, -⟩ := UpdateOffer_ok h
    have hsnd := update_snd actor inst ⟨inst.buyer, product, newAmount, newStatus⟩
    rw [← hpair] at hsnd
    have hp2 : p' = reconcileAvailability o'.status product := hsnd
    rw [hp2]
    exact reconcileAvailability_invariant o'.status product

/-- C2 counterexample: the claim excepts a buyer updating their own order
on an already-unavailable product and says that update proceeds; in the
code the availability check is unconditional, so exactly that call fails
with NotFound. -/
theorem c2_counterexample :
    UpdateOffer [⟨1, 1, 7, 2, 80, .OFFERED⟩] 7 ⟨1, 1, 7, 2, 80, .OFFERED⟩
        ⟨1, 2, 100, false⟩ (some 60) none =
      .error (.notFound notAvailableMsg) := rfl

/-- C2 (amended): if the product availability flag is false at validation
time, every UpdateOffer call fails before any mutation — with NotFound,
except that on the buyer branch an earlier check can raise first (missing
amount key, or buyer amount above price). No call proceeds; there is no
buyer exception. -/
theorem c2_unavailable_blocks_update
    (orders : List Order) (actor : Nat) (inst : Order) (product : Product)
    (newAmount : Option Int) (newStatus : Option Status)
    (hp : product.is_available = false) :
    (∀ r, UpdateOffer orders actor inst product newAmount newStatus ≠ .ok r) ∧
    (actor ≠ inst.buyer →
        UpdateOffer orders actor inst product newAmount newStatus =
          .error (.notFound notAvailableMsg)) ∧
    (∀ a, newAmount = some a → a ≤ product.price →
        UpdateOffer orders actor inst product newAmount newStatus =
          .error (.notFound notAvailableMsg)) := by
  have hd : (⟨inst.buyer, product, newAmount, newStatus⟩ : OfferData).product.is_available
      = false := hp
  obtain ⟨h1, h2⟩ := @validate_put_unavailable orders actor inst
    ⟨inst.buyer, product, newAmount, newStatus⟩ hd
  refine ⟨?_, ?_, ?_⟩
  · rintro ⟨o', p'⟩ hok
    obtain ⟨-, hav, -⟩ := UpdateOffer_ok hok
    rw [hp] at hav
    cases hav
  · intro hb
    exact UpdateOffer_eq_error (h1 hb)
  · intro a hamt hle
    exact UpdateOffer_eq_error (h2 a hamt hle)

/-- C3: the code contradicts its own documentation here. `create` is
documented to default the amount to the product price and Meta marks
amount as not required, but `validate` reads `data["amount"]`
unconditionally, so CreateOffer with the amount omitted raises an
uncaught KeyError instead of creating a PROCESSING order at list
price. This theorem evaluates the code at the failing input. -/
theorem c3_missing_amount_crashes :
    CreateOffer [] .PENDING 1 5 ⟨3, 4, 250, true⟩ none =
      .error (.keyError "amount") := rfl

/-- C4 counterexample: the first buyer update to the full price succeeds
and makes the product unavailable, so the claimed subsequent buyer update
to price - 1 fails with NotFound instead of yielding OFFERED with the
product available again. -/
theorem c4_counterexample :
    UpdateOffer [⟨1, 1, 7, 2, 80, .OFFERED⟩] 7 ⟨1, 1, 7, 2, 80, .OFFERED⟩
        ⟨1, 2, 100, true⟩ (some 100) none =
      .ok (⟨1, 1, 7, 2, 100, .PROCESSING⟩, ⟨1, 2, 100, false⟩) ∧
    UpdateOffer [⟨1, 1, 7, 2, 100, .PROCESSING⟩] 7 ⟨1, 1, 7, 2, 100, .PROCESSING⟩
        ⟨1, 2, 100, false⟩ (some 99) none =
      .error (.notFound notAvailableMsg) := ⟨rfl, rfl⟩

/-- C4 (amended): a buyer update with amount = price yields PROCESSING
and an unavailable product; the subsequent buyer update with
amount = price - 1 on the same order then fails with NotFound, because
the product is no longer available at validation time. -/
theorem c4_buyer_amount_updates
    (orders orders2 : List Order) (actor : Nat) (inst : Order) (product : Product)
    (hb : actor = inst.buyer) (hp : product.is_available = true) :
    UpdateOffer orders actor inst product (some product.price) none =
      .ok ({ inst with amount := product.price, status := .PROCESSING },
           { product with is_available := false }) ∧
    UpdateOffer orders2 actor { inst with amount := product.price, status := .PROCESSING }
        { product with is_available := false } (some (product.price - 1)) none =
      .error (.notFound notAvailableMsg) := by
  constructor
  · rw [UpdateOffer_eq_ok hp (fun h2 => ⟨product.price, rfl, le_refl product.price⟩)]
    rw [(update_buyer actor inst ⟨inst.buyer, product, some product.price, none⟩
      product.price hb rfl).2 rfl]
    rfl
  · apply UpdateOffer_eq_error
    have hd : (⟨({ inst with amount := product.price, status := .PROCESSING } : Order).buyer,
        { product with is_available := false }, some (product.price - 1),
        none⟩ : OfferData).product.is_available = false := rfl
    exact (@validate_put_unavailable orders2 actor
        { inst with amount := product.price, status := .PROCESSING } _ hd).2
      (product.price - 1) rfl (sub_le_self product.price zero_le_one)

/-- C5: a vendor update setting status ACCEPTED on an OFFERED order with
an available product yields status ACCEPTED and an unavailable product;
moreover the availability reconciliation runs after every committed
update regardless of which role branch executed. -/
theorem c5_vendor_accept
    (orders : List Order) (actor : Nat) (inst : Order) (product : Product)
    (hv : actor = inst.vendor) (hb : actor ≠ inst.buyer)
    (_hs : inst.status = .OFFERED) (hp : product.is_available = true) :
    (UpdateOffer orders actor inst product none (some .ACCEPTED) =
      .ok ({ inst with status := .ACCEPTED }, { product with is_available := false })) ∧
    (∀ actor2 newStatus o' p',
        UpdateOffer orders actor2 inst product none newStatus = .ok (o', p') →
        p' = reconcileAvailability o'.status product) := by
  constructor
  · rw [UpdateOffer_eq_ok hp (fun h2 => absurd h2 hb)]
    rw [update_vendor actor inst ⟨inst.buyer, product, none, some .ACCEPTED⟩ .ACCEPTED hv hb rfl]
    rfl
  · intro actor2 newStatus o' p' h
    obtain ⟨hpair, -, -⟩ := UpdateOffer_ok h
    have hsnd := update_snd actor2 inst ⟨inst.buyer, product, none, newStatus⟩
    rw [← hpair] at hsnd
    exact hsnd

/-- C6 counterexample: with the amount omitted on both calls, the first
CreateOffer raises an uncaught KeyError and creates nothing, so the
second identical call also raises KeyError rather than failing with
Conflict as the claim states for calling CreateOffer(B, P) twice. -/
theorem c6_counterexample :
    CreateOffer [] .PENDING 1 8 ⟨4, 3, 120, true⟩ none = .error (.keyError "amount") ∧
    CreateOffer [] .PENDING 2 8 ⟨4, 3, 120, true⟩ none = .error (.keyError "amount") :=
  ⟨rfl, rfl⟩

/-- C6 (amended): whenever a standing order for (buyer, product) exists,
CreateOffer fails with Conflict for any amount (present or omitted); in
particular after a first successful CreateOffer with an explicit amount,
a second CreateOffer for the same pair fails with Conflict and creates no
second order. With the amount omitted on both calls the first call
already fails with an uncaught KeyError, so the second raises KeyError
too. -/
theorem c6_duplicate_conflict :
    (∀ orders dbDefault newId buyer product amt,
        hasStandingOrder orders buyer product.id = true →
        CreateOffer orders dbDefault newId buyer product amt =
          .error (.conflict duplicateMsg)) ∧
    (∀ orders dbDefault newId buyer product a o1 p1 dbDefault2 newId2 amt2,
        CreateOffer orders dbDefault newId buyer product (some a) = .ok (o1, p1) →
        CreateOffer (o1 :: orders) dbDefault2 newId2 buyer p1 amt2 =
          .error (.conflict duplicateMsg)) := by
  have part1 : ∀ orders dbDefault newId buyer product amt,
      hasStandingOrder orders buyer product.id = true →
      CreateOffer orders dbDefault newId buyer product amt =
        .error (.conflict duplicateMsg) := by
    intro orders d n b p amt hdup
    simp [CreateOffer, validate, hdup]
  refine ⟨part1, ?_⟩
  intro orders d n b p a o1 p1 d2 n2 amt2 h
  obtain ⟨-, ⟨a2, hamt, hle⟩, -, hpair⟩ := CreateOffer_ok h
  apply part1
  rcases lt_or_eq_of_le hle with hlt | heq
  · have hc := (create_result d n b p ⟨b, p, some a, none⟩ a2 hamt).1 hlt
    have h2 := hpair.trans hc
    injection h2 with ho hp2
    subst ho; subst hp2
    simp [hasStandingOrder]
  · have hc := (create_result d n b p ⟨b, p, some a, none⟩ a2 hamt).2 heq
    have h2 := hpair.trans hc
    injection h2 with ho hp2
    subst ho; subst hp2
    simp [hasStandingOrder]

/-- C7: a CreateOffer whose amount exceeds the product price always fails
with the Conflict error kind and commits nothing: with no standing order
the over-price check raises, and with a standing order the duplicate
check raises first, still a Conflict. -/
theorem c7_overbid_conflict
    (orders : List Order) (dbDefault : Status) (newId buyer : Nat) (product : Product)
    (a : Int) (ha : a > product.price) :
    (hasStandingOrder orders buyer product.id = false →
        CreateOffer orders dbDefault newId buyer product (some a) =
          .error (.conflict (overPriceMsg product.price))) ∧
    (hasStandingOrder orders buyer product.id = true →
        CreateOffer orders dbDefault newId buyer product (some a) =
          .error (.conflict duplicateMsg)) := by
  constructor
  · intro hdup
    simp [CreateOffer, validate, hdup, ha]
  · intro hdup
    simp [CreateOffer, validate, hdup]

/-- C8 counterexample: re-issuing the same status-only vendor update
twice with status ACCEPTED makes the product unavailable on the first
call, so the second identical call fails with NotFound instead of
succeeding with the state unchanged. -/
theorem c8_counterexample :
    UpdateOffer [⟨2, 5, 9, 4, 70, .OFFERED⟩] 4 ⟨2, 5, 9, 4, 70, .OFFERED⟩
        ⟨5, 4, 90, true⟩ none (some .ACCEPTED) =
      .ok (⟨2, 5, 9, 4, 70, .ACCEPTED⟩, ⟨5, 4, 90, false⟩) ∧
    UpdateOffer [⟨2, 5, 9, 4, 70, .ACCEPTED⟩] 4 ⟨2, 5, 9, 4, 70, .ACCEPTED⟩
        ⟨5, 4, 90, false⟩ none (some .ACCEPTED) =
      .error (.notFound notAvailableMsg) := ⟨rfl, rfl⟩

/-- C8 (amended): a status-only vendor update issued twice leaves the
state unchanged after the first application: when the status lies in the
available set the second identical call succeeds and returns exactly the
state after the first call, and when it lies in the sold set the second
identical call fails with NotFound and mutates nothing. -/
theorem c8_status_only_idempotence
    (orders orders2 : List Order) (actor : Nat) (inst : Order) (product : Product)
    (st : Status)
    (hv : actor = inst.vendor) (hb : actor ≠ inst.buyer)
    (hp : product.is_available = true) :
    (UpdateOffer orders actor inst product none (some st) =
      .ok ({ inst with status := st }, reconcileAvailability st product)) ∧
    (st ∈ available →
        UpdateOffer orders2 actor { inst with status := st }
            (reconcileAvailability st product) none (some st) =
          .ok ({ inst with status := st }, reconcileAvailability st product)) ∧
    (st ∈ sold →
        UpdateOffer orders2 actor { inst with status := st }
            (reconcileAvailability st product) none (some st) =
          .error (.notFound notAvailableMsg)) := by
  refine ⟨?_, ?_, ?_⟩
  · rw [UpdateOffer_eq_ok hp (fun h2 => absurd h2 hb)]
    rw [update_vendor actor inst ⟨inst.buyer, product, none, some st⟩ st hv hb rfl]
  · intro hmem
    have hav1 : (reconcileAvailability st product).is_available = true :=
      (reconcileAvailability_invariant st product).1.mpr hmem
    have e1 := @UpdateOffer_eq_ok orders2 actor { inst with status := st }
      (reconcileAvailability st product) none (some st) hav1 (fun h2 => absurd h2 hb)
    have e2 := update_vendor actor { inst with status := st }
      ⟨inst.buyer, reconcileAvailability st product, none, some st⟩ st hv hb rfl
    rw [e1, e2, reconcileAvailability_idem]
  · intro hmem
    have hav0 : (reconcileAvailability st product).is_available = false :=
      (reconcileAvailability_invariant st product).2.mpr hmem
    apply UpdateOffer_eq_error
    exact (@validate_put_unavailable orders2 actor { inst with status := st }
      ⟨({ inst with status := st } : Order).buyer, reconcileAvailability st product,
        none, some st⟩ hav0).1 hb

/-- C9: an UpdateOffer whose actor is neither the order buyer nor its
vendor changes no field of the order on any committed call: the returned
order equals the input order, so neither branch ran and no status
recomputation occurred (an erroring call commits nothing by
construction). -/
theorem c9_stranger_noop
    (orders : List Order) (actor : Nat) (inst : Order) (product : Product)
    (newAmount : Option Int) (newStatus : Option Status)
    (hb : actor ≠ inst.buyer) (hv : actor ≠ inst.vendor) :
    ∀ o' p', UpdateOffer orders actor inst product newAmount newStatus = .ok (o', p') →
      o' = inst := by
  intro o' p' h
  obtain ⟨hpair, -, -⟩ := UpdateOffer_ok h
  rw [update_stranger actor inst ⟨inst.buyer, product, newAmount, newStatus⟩ hv hb] at hpair
  exact (Prod.ext_iff.mp hpair).1

/-- C10 counterexample: a CreateOffer request omitting the amount while a
standing order exists raises Conflict from the duplicate check before
the amount key is ever read, so not every amount-omitting request raises
the key-lookup error. -/
theorem c10_counterexample :
    CreateOffer [⟨6, 2, 11, 3, 40, .PENDING⟩] .PENDING 9 11 ⟨2, 3, 60, true⟩ none =
      .error (.conflict duplicateMsg) := rfl

/-- C10 (amended): every CreateOffer request with no standing
(buyer, product) order, and every buyer-issued UpdateOffer request, whose
payload omits the amount field makes validation read data["amount"] and
raise an uncaught key-lookup error instead of applying the documented
price default; with a standing order the duplicate check raises Conflict
first. -/
theorem c10_missing_amount_keyerror :
    (∀ orders dbDefault newId buyer product,
        hasStandingOrder orders buyer product.id = false →
        CreateOffer orders dbDefault newId buyer product none =
          .error (.keyError "amount")) ∧
    (∀ orders actor inst product newStatus, actor = inst.buyer →
        UpdateOffer orders actor inst product none newStatus =
          .error (.keyError "amount")) := by
  constructor
  · intro orders d n b p hdup
    simp [CreateOffer, validate, hdup]
  · intro orders actor inst p ns hb
    apply UpdateOffer_eq_error
    simp only [validate]
    rw [if_pos hb]

/-! ## Witnesses: the hypothesis-bearing claim theorems applied at
concrete inputs -/

/-- Witness for C1: a committed 80-against-100 create and a committed
vendor ACCEPTED update, with their concrete availability equivalences. -/
theorem c1_availability_invariant_witness :
    (((Product.mk 1 2 100 true).is_available = true ↔
        (Order.mk 1 1 7 2 80 .OFFERED).status ∈ available) ∧
     ((Product.mk 1 2 100 true).is_available = false ↔
        (Order.mk 1 1 7 2 80 .OFFERED).status ∈ sold)) ∧
    (((Product.mk 1 2 100 false).is_available = true ↔
        (Order.mk 1 1 7 2 80 .ACCEPTED).status ∈ available) ∧
     ((Product.mk 1 2 100 false).is_available = false ↔
        (Order.mk 1 1 7 2 80 .ACCEPTED).status ∈ sold)) :=
  ⟨c1_availability_invariant.1 [] .PENDING 1 7 ⟨1, 2, 100, true⟩ (some 80)
      ⟨1, 1, 7, 2, 80, .OFFERED⟩ ⟨1, 2, 100, true⟩ rfl,
   c1_availability_invariant.2 [⟨1, 1, 7, 2, 80, .OFFERED⟩] 2 ⟨1, 1, 7, 2, 80, .OFFERED⟩
      ⟨1, 2, 100, true⟩ none (some .ACCEPTED)
      ⟨1, 1, 7, 2, 80, .ACCEPTED⟩ ⟨1, 2, 100, false⟩ rfl⟩

/-- Witness for C2: on an unavailable product, a stranger update and a
buyer in-budget amount update both fail with NotFound. -/
theorem c2_unavailable_blocks_update_witness :
    (UpdateOffer [] 9 ⟨1, 1, 7, 2, 80, .OFFERED⟩ ⟨1, 2, 100, false⟩ none none ≠
        .ok (⟨1, 1, 7, 2, 80, .OFFERED⟩, ⟨1, 2, 100, false⟩)) ∧
    (UpdateOffer [] 9 ⟨1, 1, 7, 2, 80, .OFFERED⟩ ⟨1, 2, 100, false⟩ none none =
        .error (.notFound notAvailableMsg)) ∧
    (UpdateOffer [] 7 ⟨1, 1, 7, 2, 80, .OFFERED⟩ ⟨1, 2, 100, false⟩ (some 60) none =
        .error (.notFound notAvailableMsg)) :=
  ⟨(c2_unavailable_blocks_update [] 9 ⟨1, 1, 7, 2, 80, .OFFERED⟩ ⟨1, 2, 100, false⟩
      none none rfl).1 (⟨1, 1, 7, 2, 80, .OFFERED⟩, ⟨1, 2, 100, false⟩),
   (c2_unavailable_blocks_update [] 9 ⟨1, 1, 7, 2, 80, .OFFERED⟩ ⟨1, 2, 100, false⟩
      none none rfl).2.1 (by decide),
   (c2_unavailable_blocks_update [] 7 ⟨1, 1, 7, 2, 80, .OFFERED⟩ ⟨1, 2, 100, false⟩
      (some 60) none rfl).2.2 60 rfl (by decide)⟩

/-- Witness for C4: the two-step buyer amount scenario evaluated at a
concrete order and product. -/
theorem c4_buyer_amount_updates_witness :
    (UpdateOffer [⟨1, 1, 7, 2, 80, .OFFERED⟩] 7 ⟨1, 1, 7, 2, 80, .OFFERED⟩
        ⟨1, 2, 100, true⟩ (some 100) none =
      .ok (⟨1, 1, 7, 2, 100, .PROCESSING⟩, ⟨1, 2, 100, false⟩)) ∧
    (UpdateOffer [⟨1, 1, 7, 2, 100, .PROCESSING⟩] 7 ⟨1, 1, 7, 2, 100, .PROCESSING⟩
        ⟨1, 2, 100, false⟩ (some 99) none =
      .error (.notFound notAvailableMsg)) :=
  c4_buyer_amount_updates [⟨1, 1, 7, 2, 80, .OFFERED⟩] [⟨1, 1, 7, 2, 100, .PROCESSING⟩]
    7 ⟨1, 1, 7, 2, 80, .OFFERED⟩ ⟨1, 2, 100, true⟩ rfl rfl

/-- Witness for C5: the concrete vendor ACCEPTED update. -/
theorem c5_vendor_accept_witness :
    UpdateOffer [⟨1, 1, 7, 2, 80, .OFFERED⟩] 2 ⟨1, 1, 7, 2, 80, .OFFERED⟩
        ⟨1, 2, 100, true⟩ none (some .ACCEPTED) =
      .ok (⟨1, 1, 7, 2, 80, .ACCEPTED⟩, ⟨1, 2, 100, false⟩) :=
  (c5_vendor_accept [⟨1, 1, 7, 2, 80, .OFFERED⟩] 2 ⟨1, 1, 7, 2, 80, .OFFERED⟩
      ⟨1, 2, 100, true⟩ rfl (by decide) rfl rfl).1

/-- Witness for C6: a duplicate standing order makes a concrete
CreateOffer fail with Conflict, and after a successful concrete create
the repeated create fails with Conflict. -/
theorem c6_duplicate_conflict_witness :
    (CreateOffer [⟨1, 1, 7, 2, 80, .OFFERED⟩] .PENDING 2 7 ⟨1, 2, 100, true⟩ (some 90) =
        .error (.conflict duplicateMsg)) ∧
    (CreateOffer [⟨2, 3, 8, 4, 50, .OFFERED⟩] .PENDING 5 8 ⟨3, 4, 60, true⟩ (some 55) =
        .error (.conflict duplicateMsg)) :=
  ⟨c6_duplicate_conflict.1 [⟨1, 1, 7, 2, 80, .OFFERED⟩] .PENDING 2 7 ⟨1, 2, 100, true⟩
      (some 90) rfl,
   c6_duplicate_conflict.2 [] .PENDING 2 8 ⟨3, 4, 60, true⟩ 50
      ⟨2, 3, 8, 4, 50, .OFFERED⟩ ⟨3, 4, 60, true⟩ .PENDING 5 (some 55) rfl⟩

/-- Witness for C7: the spec example, an offer of 150 against a price of
100, fails with Conflict both without and with a standing order. -/
theorem c7_overbid_conflict_witness :
    (CreateOffer [] .PENDING 1 7 ⟨1, 2, 100, true⟩ (some 150) =
        .error (.conflict (overPriceMsg 100))) ∧
    (CreateOffer [⟨1, 1, 7, 2, 80, .OFFERED⟩] .PENDING 2 7 ⟨1, 2, 100, true⟩ (some 150) =
        .error (.conflict duplicateMsg)) :=
  ⟨(c7_overbid_conflict [] .PENDING 1 7 ⟨1, 2, 100, true⟩ 150 (by decide)).1 rfl,
   (c7_overbid_conflict [⟨1, 1, 7, 2, 80, .OFFERED⟩] .PENDING 2 7 ⟨1, 2, 100, true⟩ 150
      (by decide)).2 rfl⟩

/-- Witness for C8: a concrete DENIED update is idempotent on the second
identical call, and a concrete ACCEPTED update fails with NotFound on the
second identical call. -/
theorem c8_status_only_idempotence_witness :
    (UpdateOffer [⟨1, 1, 7, 2, 80, .OFFERED⟩] 2 ⟨1, 1, 7, 2, 80, .OFFERED⟩
        ⟨1, 2, 100, true⟩ none (some .DENIED) =
      .ok (⟨1, 1, 7, 2, 80, .DENIED⟩, ⟨1, 2, 100, true⟩)) ∧
    (UpdateOffer [⟨1, 1, 7, 2, 80, .DENIED⟩] 2 ⟨1, 1, 7, 2, 80, .DENIED⟩
        ⟨1, 2, 100, true⟩ none (some .DENIED) =
      .ok (⟨1, 1, 7, 2, 80, .DENIED⟩, ⟨1, 2, 100, true⟩)) ∧
    (UpdateOffer [⟨1, 1, 7, 2, 80, .ACCEPTED⟩] 2 ⟨1, 1, 7, 2, 80, .ACCEPTED⟩
        ⟨1, 2, 100, false⟩ none (some .ACCEPTED) =
      .error (.notFound notAvailableMsg)) :=
  ⟨(c8_status_only_idempotence [⟨1, 1, 7, 2, 80, .OFFERED⟩] [⟨1, 1, 7, 2, 80, .DENIED⟩]
      2 ⟨1, 1, 7, 2, 80, .OFFERED⟩ ⟨1, 2, 100, true⟩ .DENIED rfl (by decide) rfl).1,
   (c8_status_only_idempotence [⟨1, 1, 7, 2, 80, .OFFERED⟩] [⟨1, 1, 7, 2, 80, .DENIED⟩]
      2 ⟨1, 1, 7, 2, 80, .OFFERED⟩ ⟨1, 2, 100, true⟩ .DENIED rfl (by decide) rfl).2.1
      (by decide),
   (c8_status_only_idempotence [⟨1, 1, 7, 2, 80, .OFFERED⟩] [⟨1, 1, 7, 2, 80, .ACCEPTED⟩]
      2 ⟨1, 1, 7, 2, 80, .OFFERED⟩ ⟨1, 2, 100, true⟩ .ACCEPTED rfl (by decide) rfl).2.2
      (by decide)⟩

/-- Witness for C9: a committed update by actor 9, a stranger to the
order, returns the order unchanged. -/
theorem c9_stranger_noop_witness :
    (UpdateOffer [⟨1, 1, 7, 2, 80, .OFFERED⟩] 9 ⟨1, 1, 7, 2, 80, .OFFERED⟩
        ⟨1, 2, 100, true⟩ (some 50) none =
      .ok (⟨1, 1, 7, 2, 80, .OFFERED⟩, ⟨1, 2, 100, true⟩)) ∧
    (Order.mk 1 1 7 2 80 .OFFERED = ⟨1, 1, 7, 2, 80, .OFFERED⟩) :=
  ⟨rfl,
   c9_stranger_noop [⟨1, 1, 7, 2, 80, .OFFERED⟩] 9 ⟨1, 1, 7, 2, 80, .OFFERED⟩
      ⟨1, 2, 100, true⟩ (some 50) none (by decide) (by decide)
      ⟨1, 1, 7, 2, 80, .OFFERED⟩ ⟨1, 2, 100, true⟩ rfl⟩

/-- Witness for C10: a concrete duplicate-free no-amount create and a
concrete buyer no-amount update both raise the key error. -/
theorem c10_missing_amount_keyerror_witness :
    (CreateOffer [] .PENDING 1 12 ⟨8, 2, 300, true⟩ none =
        .error (.keyError "amount")) ∧
    (UpdateOffer [⟨1, 1, 7, 2, 80, .OFFERED⟩] 7 ⟨1, 1, 7, 2, 80, .OFFERED⟩
        ⟨1, 2, 100, true⟩ none (some .ACCEPTED) =
      .error (.keyError "amount")) :=
  ⟨c10_missing_amount_keyerror.1 [] .PENDING 1 12 ⟨8, 2, 300, true⟩ rfl,
   c10_missing_amount_keyerror.2 [⟨1, 1, 7, 2, 80, .OFFERED⟩] 7 ⟨1, 1, 7, 2, 80, .OFFERED⟩
      ⟨1, 2, 100, true⟩ (some .ACCEPTED) rfl⟩

end EcommerceOrder
